import Mathlib

/-!
Shallow embedding of the go-middleware repository
(src/unnamed/part_000: Metrics; src/middleware/Middleware.go: the Gin
middleware chain), together with theorems settling the specification
claims about it.

Go machine integers (uint64) are modelled as Nat with an explicit
modulus 2^64 applied where the source performs a wrapping addition
(atomic.AddUint64). Go maps are modelled as association lists with the
increment-or-insert operation used by the source (`m[k]++`). The code
under consideration is sequential per request; the CAS retry loops of
RecordRequest are embedded by their sequential semantics (a CAS on an
uncontended location always succeeds, so the loop body runs once).
-/

namespace GoMiddleware

/-- Modulus of Go's uint64 arithmetic: wrapping additions of
atomic.AddUint64 are modelled as addition followed by `% U64MOD`. -/
def U64MOD : Nat := 18446744073709551616

/-- Increment-or-insert on an association list, the semantics of Go's
`m[k]++` on a map whose values default to 0 for absent keys
(part_000 lines 68-69). The stored value wraps at 2^64. -/
def incr {α : Type} [DecidableEq α] (k : α) : List (α × Nat) → List (α × Nat)
  | [] => [(k, 1 % U64MOD)]
  | (k2, v) :: rest => if k = k2 then (k2, (v + 1) % U64MOD) :: rest else (k2, v) :: incr k rest

/-- Lookup on an association list with Go's zero-value default for a
missing key. -/
def lookup0 {α : Type} [DecidableEq α] (k : α) : List (α × Nat) → Nat
  | [] => 0
  | (k2, v) :: rest => if k = k2 then v else lookup0 k rest

/-- Sum of the values of an association list (sum over a Go map's values). -/
def sumVals {α : Type} (l : List (α × Nat)) : Nat := (l.map Prod.snd).sum

/-- The Metrics struct of part_000 lines 11-21. The sync.RWMutex field
has no sequential content and is omitted; all uint64 fields are Nat. -/
structure Metrics where
  TotalRequests : Nat
  ErrorCount : Nat
  TotalLatency : Nat
  MinLatency : Nat
  MaxLatency : Nat
  MethodCounts : List (String × Nat)
  StatusCodeCounts : List (Int × Nat)
  TotalDuration : Nat
deriving Repr, DecidableEq

/-- NewMetrics (part_000 lines 24-30): empty maps, MinLatency
initialized to the maximum uint64 value, every other field the Go zero
value 0. -/
def NewMetrics : Metrics :=
  { TotalRequests := 0
    ErrorCount := 0
    TotalLatency := 0
    MinLatency := U64MOD - 1
    MaxLatency := 0
    MethodCounts := []
    StatusCodeCounts := []
    TotalDuration := 0 }

/-- Sequential semantics of the MinLatency CAS retry loop
(part_000 lines 44-53): load the current value; if it is 0 or the new
latency is smaller, the CAS succeeds (no contention) and stores the
latency; otherwise the loop exits leaving the value unchanged. Note the
source tests `current == 0` even though the unset sentinel installed by
NewMetrics is max uint64. -/
def updateMin (cur latencyMs : Nat) : Nat :=
  if cur = 0 ∨ latencyMs < cur then latencyMs else cur

/-- Sequential semantics of the MaxLatency CAS retry loop
(part_000 lines 56-65): store the latency only when it exceeds the
current value. -/
def updateMax (cur latencyMs : Nat) : Nat :=
  if latencyMs > cur then latencyMs else cur

/-- Metrics.RecordRequest (part_000 lines 33-71). `latencyMs` is the
already-converted `uint64(latency.Milliseconds())` of line 40; every
counter addition wraps as atomic.AddUint64 does. -/
def RecordRequest (m : Metrics) (method : String) (statusCode : Int) (latencyMs : Nat) : Metrics :=
  let m1 := { m with TotalRequests := (m.TotalRequests + 1) % U64MOD }
  let m2 := if statusCode ≥ 400 then { m1 with ErrorCount := (m1.ErrorCount + 1) % U64MOD } else m1
  let m3 := { m2 with TotalLatency := (m2.TotalLatency + latencyMs) % U64MOD }
  let m4 := { m3 with MinLatency := updateMin m3.MinLatency latencyMs }
  let m5 := { m4 with MaxLatency := updateMax m4.MaxLatency latencyMs }
  { m5 with
      MethodCounts := incr method m5.MethodCounts
      StatusCodeCounts := incr statusCode m5.StatusCodeCounts }

/-- The snapshot map returned by Metrics.GetMetrics
(part_000 lines 74-92), one field per key of the returned
map[string]interface. -/
structure MetricsSnapshot where
  total_requests : Nat
  method_counts : List (String × Nat)
  status_code_counts : List (Int × Nat)
  average_duration_ms : Nat
deriving Repr, DecidableEq

/-- Metrics.GetMetrics (part_000 lines 74-92): copies the two maps and
reports `average_duration_ms = TotalDuration / (TotalRequests + 1)`
(integer division; the `+ 1` is the source's division-by-zero guard,
line 90). The `+ 1` is itself uint64 arithmetic, so it wraps to 0 at
TotalRequests = 2^64 - 1; Go's division then panics with a runtime
divide-by-zero, modelled here as `none`. -/
def GetMetrics (m : Metrics) : Option MetricsSnapshot :=
  if ((m.TotalRequests + 1) % U64MOD) = 0 then none
  else
    some
      { total_requests := m.TotalRequests
        method_counts := m.MethodCounts
        status_code_counts := m.StatusCodeCounts
        average_duration_ms := m.TotalDuration / ((m.TotalRequests + 1) % U64MOD) }

/-- The ResponseWriter wrapper of Middleware.go lines 72-78. `body` is
the bytes.Buffer copy of the body; `statusCode` and `wroteHeader`
mirror the struct fields. The embedded gin.ResponseWriter (the
underlying sink, an external collaborator) is represented by the
observable calls made to it: `underlyingBytes` is the concatenation of
all byte slices passed to its Write, `underlyingHeaders` the list of
status codes passed to its WriteHeader. Bytes are byte values (Nat). -/
structure ResponseWriter where
  body : List Nat
  statusCode : Int
  wroteHeader : Bool
  underlyingBytes : List Nat
  underlyingHeaders : List Int
deriving Repr, DecidableEq

/-- The wrapper as constructed by LogResponseMiddleware lines 165-168:
a fresh empty buffer, Go zero values for statusCode (0) and
wroteHeader (false), and an underlying sink that has seen nothing. -/
def ResponseWriter.zero : ResponseWriter :=
  { body := []
    statusCode := 0
    wroteHeader := false
    underlyingBytes := []
    underlyingHeaders := [] }

/-- ResponseWriter.WriteHeader (Middleware.go lines 90-96): on the
first call, stores the code, sets the flag and delegates to the
underlying sink; any later call changes nothing. -/
def WriteHeader (w : ResponseWriter) (code : Int) : ResponseWriter :=
  if !w.wroteHeader then
    { w with
        statusCode := code
        wroteHeader := true
        underlyingHeaders := w.underlyingHeaders ++ [code] }
  else w

/-- ResponseWriter.Write (Middleware.go lines 81-87): writes header 200
first if none was written, appends the bytes to the buffer and forwards
them to the underlying sink; returns the byte count reported by the
underlying Write. -/
def Write (w : ResponseWriter) (b : List Nat) : ResponseWriter × Nat :=
  let w1 := if !w.wroteHeader then WriteHeader w 200 else w
  let w2 := { w1 with body := w1.body ++ b }
  ({ w2 with underlyingBytes := w2.underlyingBytes ++ b }, b.length)

/-- Folds a sequence of Write calls over a ResponseWriter, discarding
the returned byte counts. -/
def writeAll (w : ResponseWriter) (chunks : List (List Nat)) : ResponseWriter :=
  chunks.foldl (fun w b => (Write w b).1) w

/-- The metrics side effect of LogResponseMiddleware lines 185-188: two
direct wrapping counter additions (TotalRequests, TotalDuration) and
then the RecordRequest call, all with the same method, observed status
code and duration. -/
def logResponseMetricsStep (m : Metrics) (method : String) (statusCode : Int) (durationMs : Nat) : Metrics :=
  let m1 := { m with TotalRequests := (m.TotalRequests + 1) % U64MOD }
  let m2 := { m1 with TotalDuration := (m1.TotalDuration + durationMs) % U64MOD }
  RecordRequest m2 method statusCode durationMs

/-- Timing structure of LogResponseMiddleware lines 156-190, with an
explicit millisecond clock. `startTime` is the value stored in the
context by LogRequestMiddleware, `entryClock` the clock when the stage
body starts, `handlerElapsed` the time c.Next() (the downstream
handler chain) takes. The stage computes
`duration := time.Since(start)` at line 158, BEFORE calling c.Next()
at line 171; the first component is the duration it later logs and
passes to the metrics, the second is the clock when the stage
finishes. -/
def logResponseStageTiming (startTime entryClock handlerElapsed : Nat) : Nat × Nat :=
  let duration := entryClock - startTime
  let clockAfterNext := entryClock + handlerElapsed
  (duration, clockAfterNext)

/-- The end-to-end scenario writer state: the /ping handler runs
c.JSON(200, ...) against the wrapper installed by
LogResponseMiddleware, which writes the header 200 and then the body
bytes. -/
def pingBody : String := "\x7b\"message\":\"pong\"\x7d"

/-- Byte values of a string (each character as its code point; the
scenario bodies are ASCII so this matches Go's []byte conversion). -/
def strBytes (s : String) : List Nat := s.data.map Char.toNat

/-- Writer state after the /ping handler completes against the
interceptor. -/
def pingScenarioWriter : ResponseWriter :=
  (Write (WriteHeader ResponseWriter.zero 200) (strBytes pingBody)).1

/-- The HTTP method of the end-to-end scenario. -/
def methodGET : String := "GET"

/-- Metrics after one GET /ping request (status 200, 5 ms) flows
through the chain: LogResponseMiddleware reads the observed status code
from the wrapper and applies its metrics step to the fresh global
Metrics instance. -/
def pingChainMetrics : Metrics :=
  logResponseMetricsStep NewMetrics methodGET pingScenarioWriter.statusCode 5

/-- Observable outcome of the recovery path: the status and body
written with c.JSON, the requestIDs passed to defaultLogger.LogError
(in call order), and whether c.Abort was called. -/
structure RecoveryOutcome where
  status : Int
  body : String
  logErrorCalls : List String
  aborted : Bool
deriving Repr, DecidableEq

/-- The JSON body produced by `c.JSON(500, gin.H{...})` in
RecoveryMiddleware lines 111-114: Go's encoding/json serializes a map
with its keys in sorted order, so "message" precedes "request_id". -/
def recoveryErrorBody (requestID : String) : String :=
  "\x7b\"message\":\"Internal Server Error. Please try again later.\",\"request_id\":\"" ++ requestID ++ "\"\x7d"

/-- The fault-handling callback of RecoveryMiddleware
(Middleware.go lines 101-119). The safe.SafeGo fault boundary is an
external collaborator (github.com/kimxuanhong/go-utils/safe): it runs
the callback with `ex = some errMsg` when the downstream chain
panicked and `ex = none` when it completed normally; only the fault
branch (lines 103-117) produces an outcome here, the normal branch
continues the chain (`none`). `ctxRequestID` is c.GetString("requestID")
(Go zero value "" when absent); `freshUUID` is the value
uuid.NewString() would produce. -/
def recoverHandler (ctxRequestID freshUUID : String) (ex : Option String) : Option RecoveryOutcome :=
  match ex with
  | some _ =>
    let requestID := if ctxRequestID = "" then freshUUID else ctxRequestID
    some
      { status := 500
        body := recoveryErrorBody requestID
        logErrorCalls := [requestID]
        aborted := true }
  | none => none

/-- JSON insignificant whitespace (space, tab, newline, carriage
return), the characters encoding/json discards outside string
literals. -/
def isJSONWs (c : Char) : Bool :=
  c = ' ' || c = '\t' || c = '\n' || c = '\r'

/-- Drops leading JSON whitespace. -/
def skipWs : List Char → List Char
  | [] => []
  | c :: cs => if isJSONWs c then skipWs cs else c :: cs

/-- Scans the remainder of a JSON string literal (the opening quote
already consumed): returns the scanned characters including the
closing quote, and the rest of the input. Escape pairs are copied
verbatim, as json.Compact leaves string contents untouched. -/
def scanStringLit : List Char → Option (List Char × List Char)
  | [] => none
  | c :: cs =>
    if c = '"' then some ([c], cs)
    else if c = '\\' then
      match cs with
      | [] => none
      | d :: ds =>
        match scanStringLit ds with
        | some (out, rest) => some (c :: d :: out, rest)
        | none => none
    else
      match scanStringLit cs with
      | some (out, rest) => some (c :: out, rest)
      | none => none

/-- Decimal digit test. -/
def isDigitCh (c : Char) : Bool := '0' ≤ c && c ≤ '9'

/-- Takes the longest digit run from the front of the input. -/
def scanDigits : List Char → List Char × List Char
  | [] => ([], [])
  | c :: cs =>
    if isDigitCh c then
      let p := scanDigits cs
      (c :: p.1, p.2)
    else ([], c :: cs)

/-- Scans the optional fraction part of a JSON number. -/
def scanFrac : List Char → Option (List Char × List Char)
  | [] => some ([], [])
  | c :: cs =>
    if c = '.' then
      match scanDigits cs with
      | ([], _) => none
      | (ds, rest) => some (c :: ds, rest)
    else some ([], c :: cs)

/-- Scans the optional exponent part of a JSON number. -/
def scanExp : List Char → Option (List Char × List Char)
  | [] => some ([], [])
  | c :: cs =>
    if c = 'e' || c = 'E' then
      let p : List Char × List Char :=
        match cs with
        | d :: ds => if d = '+' || d = '-' then ([d], ds) else ([], cs)
        | [] => ([], [])
      match scanDigits p.2 with
      | ([], _) => none
      | (ds, rest) => some (c :: p.1 ++ ds, rest)
    else some ([], c :: cs)

/-- Scans a JSON number (optional minus, digits, optional fraction and
exponent). -/
def scanNumber (l : List Char) : Option (List Char × List Char) :=
  let p : List Char × List Char :=
    match l with
    | c :: cs => if c = '-' then ([c], cs) else ([], l)
    | [] => ([], [])
  match scanDigits p.2 with
  | ([], _) => none
  | (ip, l2) =>
    match scanFrac l2 with
    | none => none
    | some (fp, l3) =>
      match scanExp l3 with
      | none => none
      | some (ep, l4) => some (p.1 ++ ip ++ fp ++ ep, l4)

/-- Consumes an exact literal from the front of the input. -/
def expectLit : List Char → List Char → Option (List Char)
  | [], rest => some rest
  | _ :: _, [] => none
  | x :: xs, y :: ys => if x = y then expectLit xs ys else none

/-- Opening brace character. -/
def lbrace : Char := Char.ofNat 123

/-- Closing brace character. -/
def rbrace : Char := Char.ofNat 125

/-- Parser modes for the JSON grammar: a value, an object body (just
after the opening brace), the members of a non-empty object, an array
body (just after the opening bracket), and the elements of a non-empty
array. -/
inductive PMode : Type
  | value : PMode
  | objBody : PMode
  | objMembers : PMode
  | arrBody : PMode
  | arrElems : PMode
deriving Repr, DecidableEq

/-- Fuel-indexed JSON scanner modelling the validating whitespace
stripper json.Compact (the "JSON/body-encoding choice" the spec treats
as an external collaborator): on success it returns the scanned
construct with insignificant whitespace removed, plus the unconsumed
input; on malformed input it returns none. The fuel only bounds the
nesting of recursive calls; `jsonCompact` supplies enough of it for any
input. -/
def parseJ : Nat → PMode → List Char → Option (List Char × List Char)
  | 0, _, _ => none
  | fuel + 1, PMode.value, l =>
    match skipWs l with
    | [] => none
    | c :: cs =>
      if c = '"' then
        match scanStringLit cs with
        | some (s, rest) => some ('"' :: s, rest)
        | none => none
      else if c = lbrace then parseJ fuel PMode.objBody cs
      else if c = '[' then parseJ fuel PMode.arrBody cs
      else if c = 't' then
        match expectLit (['r', 'u', 'e']) cs with
        | some rest => some (['t', 'r', 'u', 'e'], rest)
        | none => none
      else if c = 'f' then
        match expectLit (['a', 'l', 's', 'e']) cs with
        | some rest => some (['f', 'a', 'l', 's', 'e'], rest)
        | none => none
      else if c = 'n' then
        match expectLit (['u', 'l', 'l']) cs with
        | some rest => some (['n', 'u', 'l', 'l'], rest)
        | none => none
      else scanNumber (c :: cs)
  | fuel + 1, PMode.objBody, l =>
    match skipWs l with
    | [] => none
    | c :: cs =>
      if c = rbrace then some ([lbrace, rbrace], cs)
      else
        match parseJ fuel PMode.objMembers (c :: cs) with
        | some (out, rest) => some (lbrace :: out, rest)
        | none => none
  | fuel + 1, PMode.objMembers, l =>
    match skipWs l with
    | [] => none
    | q :: cs =>
      if q = '"' then
        match scanStringLit cs with
        | some (key, rest1) =>
          match skipWs rest1 with
          | [] => none
          | colon :: rest2 =>
            if colon = ':' then
              match parseJ fuel PMode.value rest2 with
              | some (vout, rest3) =>
                match skipWs rest3 with
                | [] => none
                | sep :: rest4 =>
                  if sep = ',' then
                    match parseJ fuel PMode.objMembers rest4 with
                    | some (mout, rest5) =>
                      some ('"' :: key ++ ':' :: vout ++ ',' :: mout, rest5)
                    | none => none
                  else if sep = rbrace then
                    some ('"' :: key ++ ':' :: vout ++ [rbrace], rest4)
                  else none
              | none => none
            else none
        | none => none
      else none
  | fuel + 1, PMode.arrBody, l =>
    match skipWs l with
    | [] => none
    | c :: cs =>
      if c = ']' then some (['[', ']'], cs)
      else
        match parseJ fuel PMode.arrElems (c :: cs) with
        | some (out, rest) => some ('[' :: out, rest)
        | none => none
  | fuel + 1, PMode.arrElems, l =>
    match parseJ fuel PMode.value l with
    | some (vout, rest1) =>
      match skipWs rest1 with
      | [] => none
      | sep :: rest2 =>
        if sep = ',' then
          match parseJ fuel PMode.arrElems rest2 with
          | some (eout, rest3) => some (vout ++ ',' :: eout, rest3)
          | none => none
        else if sep = ']' then some (vout ++ [']'], rest2)
        else none
    | none => none

/-- Model of json.Compact on a whole input (Middleware.go line 203): a
top-level JSON value, optionally surrounded by whitespace; none on
malformed input (the err of line 204). -/
def jsonCompact (data : String) : Option String :=
  let cs := data.data
  match parseJ (2 * cs.length + 8) PMode.value cs with
  | some (out, rest) =>
    match skipWs rest with
    | [] => some (String.mk out)
    | _ :: _ => none
  | none => none

/-- compactJSON (Middleware.go lines 198-208): empty input short
circuits to empty output; otherwise the compacted JSON on success, the
raw input unchanged when json.Compact reports an error. -/
def compactJSON (data : String) : String :=
  if data = "" then ""
  else
    match jsonCompact data with
    | some c => c
    | none => data

/-- Folds a sequence of direct RecordRequest calls
(method, statusCode, latencyMs) over a Metrics value. -/
def recordAll (m : Metrics) (calls : List (String × Int × Nat)) : Metrics :=
  calls.foldl (fun acc c => RecordRequest acc c.1 c.2.1 c.2.2) m

/-- RecordRequest never touches the TotalDuration field (part_000
lines 33-71 write every field except TotalDuration). -/
theorem recordRequest_preserves_totalDuration (m : Metrics) (a : String) (s : Int) (l : Nat) :
    (RecordRequest m a s l).TotalDuration = m.TotalDuration := by
  unfold RecordRequest
  by_cases h : s ≥ 400 <;> simp [h]

/-- Folding any sequence of RecordRequest calls leaves TotalDuration
unchanged. -/
theorem recordAll_preserves_totalDuration (calls : List (String × Int × Nat)) :
    ∀ m : Metrics, (recordAll m calls).TotalDuration = m.TotalDuration := by
  induction calls with
  | nil => intro m; rfl
  | cons c cs ih =>
    intro m
    have h1 : recordAll m (c :: cs) = recordAll (RecordRequest m c.1 c.2.1 c.2.2) cs := rfl
    rw [h1, ih, recordRequest_preserves_totalDuration]

/-- C1: after one GET /ping request (handler status 200, body
pong) flows through the full middleware chain, the metrics show
methodCounts GET = 1 and statusCodeCounts 200 = 1 as claimed, but
totalRequests is 2, not 1: LogResponseMiddleware line 186 increments
TotalRequests directly and RecordRequest (called at line 188)
increments it again. -/
theorem chain_single_request_double_counts_total :
    pingChainMetrics.TotalRequests = 2 ∧
    lookup0 methodGET pingChainMetrics.MethodCounts = 1 ∧
    lookup0 (200 : Int) pingChainMetrics.StatusCodeCounts = 1 ∧
    pingChainMetrics.TotalRequests ≠ 1 := by decide

/-- C2: the latency LogResponseMiddleware logs and passes to
RecordRequest is computed from the stored start time at stage entry
(line 158), BEFORE c.Next() invokes the downstream handler (line 171):
it is therefore independent of how long the handler takes, and for a
stage entered at the stored start time with a handler taking 5 ms the
recorded latency is 0 while the full chain elapsed 5 ms. -/
theorem logResponse_latency_excludes_handler :
    (∀ s e h h2 : Nat, (logResponseStageTiming s e h).1 = (logResponseStageTiming s e h2).1) ∧
    (logResponseStageTiming 0 0 5).1 = 0 ∧
    (logResponseStageTiming 0 0 5).2 = 5 ∧
    (logResponseStageTiming 0 0 5).1 ≠ (logResponseStageTiming 0 0 5).2 - 0 :=
  ⟨fun _ _ _ _ => rfl, rfl, rfl, by decide⟩

/-- C3: from a fresh Metrics instance, the call sequence
recordRequest(GET, 200, 0ms) then recordRequest(GET, 200, 5ms) yields
MinLatency = 5, not min(0,5) = 0: the CAS loop of part_000 line 46
tests `current == 0` as the unset sentinel although NewMetrics
initializes MinLatency to max uint64, so a recorded 0 latency is
treated as unset and overwritten. The other aggregates of the claim
are correct at this input (TotalRequests = 2, TotalLatency = 5,
MaxLatency = 5). -/
theorem recordRequest_min_latency_zero_bug :
    (RecordRequest (RecordRequest NewMetrics methodGET 200 0) methodGET 200 5).MinLatency = 5 ∧
    (RecordRequest (RecordRequest NewMetrics methodGET 200 0) methodGET 200 5).MinLatency ≠ min 0 5 ∧
    (RecordRequest (RecordRequest NewMetrics methodGET 200 0) methodGET 200 5).TotalRequests = 2 ∧
    (RecordRequest (RecordRequest NewMetrics methodGET 200 0) methodGET 200 5).TotalLatency = 5 ∧
    (RecordRequest (RecordRequest NewMetrics methodGET 200 0) methodGET 200 5).MaxLatency = 5 := by
  decide

/-- C4: one request recorded through the response-log-and-metrics
stage from a fresh Metrics instance leaves
sum(methodCounts) = sum(statusCodeCounts) = 1 but totalRequests = 2,
so the claimed invariant sum(methodCounts) = totalRequests =
sum(statusCodeCounts) is not preserved by that stage (the
double increment of Middleware.go line 186 plus part_000 line 34). -/
theorem logResponse_breaks_count_invariant :
    sumVals (logResponseMetricsStep NewMetrics methodGET 200 5).MethodCounts = 1 ∧
    sumVals (logResponseMetricsStep NewMetrics methodGET 200 5).StatusCodeCounts = 1 ∧
    (logResponseMetricsStep NewMetrics methodGET 200 5).TotalRequests = 2 ∧
    sumVals (logResponseMetricsStep NewMetrics methodGET 200 5).MethodCounts ≠
      (logResponseMetricsStep NewMetrics methodGET 200 5).TotalRequests := by decide

/-- C5: GetMetrics on a fresh Metrics instance (zero recorded
requests) does not fault: the wrapped divisor (0 + 1) mod 2^64 is 1,
so the division is 0 / 1 and the snapshot is returned with
total_requests = 0 and average_duration_ms = 0. -/
theorem snapshot_zero_requests_no_fault :
    GetMetrics NewMetrics =
      some
        { total_requests := 0
          method_counts := []
          status_code_counts := []
          average_duration_ms := 0 } := by decide

/-- C6: whenever a fault propagates from the downstream handler, the
recovery stage produces status 500 with body exactly the fixed JSON
error object carrying some non-empty request id, logs that same id
exactly once via logError, and aborts the chain. -/
theorem recovery_fault_response (ctxRequestID freshUUID errMsg : String)
    (huuid : freshUUID ≠ "") :
    ∃ id : String, id ≠ "" ∧
      recoverHandler ctxRequestID freshUUID (some errMsg) =
        some
          { status := 500
            body := recoveryErrorBody id
            logErrorCalls := [id]
            aborted := true } := by
  by_cases h : ctxRequestID = ""
  · exact ⟨freshUUID, huuid, by simp [recoverHandler, h]⟩
  · exact ⟨ctxRequestID, h, by simp [recoverHandler, h]⟩

/-- Witness for C6 at the concrete inputs: no stored request id, fresh
uuid a1b2, fault message boom. -/
theorem recovery_fault_response_witness :
    ∃ id : String, id ≠ "" ∧
      recoverHandler ("") ("a1b2") (some ("boom")) =
        some
          { status := 500
            body := recoveryErrorBody id
            logErrorCalls := [id]
            aborted := true } :=
  recovery_fault_response ("") ("a1b2") ("boom") (by decide)

/-- A Write call appends its bytes both to the forwarded stream of the
underlying sink and to the internal buffer, whatever the current
writer state. -/
theorem write_appends (w : ResponseWriter) (b : List Nat) :
    (Write w b).1.underlyingBytes = w.underlyingBytes ++ b ∧
    (Write w b).1.body = w.body ++ b := by
  unfold Write WriteHeader
  cases hw : w.wroteHeader <;> simp [hw]

/-- Folding Write calls concatenates all chunks onto the forwarded
stream and the internal buffer. -/
theorem writeAll_spec (chunks : List (List Nat)) :
    ∀ w : ResponseWriter,
      (writeAll w chunks).underlyingBytes = w.underlyingBytes ++ chunks.flatten ∧
      (writeAll w chunks).body = w.body ++ chunks.flatten := by
  induction chunks with
  | nil => intro w; simp [writeAll]
  | cons b bs ih =>
    intro w
    have h1 : writeAll w (b :: bs) = writeAll (Write w b).1 bs := rfl
    have h2 := ih ((Write w b).1)
    have h3 := write_appends w b
    rw [h1]
    constructor
    · rw [h2.1, h3.1, List.flatten_cons, List.append_assoc]
    · rw [h2.2, h3.2, List.flatten_cons, List.append_assoc]

/-- C7: a Write in a state where no header was written first records
status 200 (and marks the header written), and for every sequence of
Write calls against a freshly installed wrapper the bytes forwarded to
the underlying sink are exactly the chunks passed to Write
concatenated in call order, with the internal buffer holding the same
concatenation. -/
theorem interceptor_write_forwards_exactly :
    (∀ (w : ResponseWriter) (b : List Nat), w.wroteHeader = false →
        (Write w b).1.statusCode = 200 ∧ (Write w b).1.wroteHeader = true) ∧
    (∀ chunks : List (List Nat),
        (writeAll ResponseWriter.zero chunks).underlyingBytes = chunks.flatten ∧
        (writeAll ResponseWriter.zero chunks).body = chunks.flatten) := by
  constructor
  · intro w b h
    unfold Write WriteHeader
    simp [h]
  · intro chunks
    have h := writeAll_spec chunks ResponseWriter.zero
    simpa using h

/-- Witness for C7: a single Write of two bytes against the fresh
wrapper records status 200 and marks the header written. -/
theorem interceptor_write_forwards_exactly_witness :
    (Write ResponseWriter.zero [104, 105]).1.statusCode = 200 ∧
    (Write ResponseWriter.zero [104, 105]).1.wroteHeader = true :=
  interceptor_write_forwards_exactly.1 ResponseWriter.zero [104, 105] rfl

/-- C8: the first WriteHeader records the code, marks the header
written and delegates the code to the underlying sink; a WriteHeader
in an already-written state changes nothing (the whole writer state,
underlying sink included, is untouched), so a second consecutive
WriteHeader is always absorbed by the first. -/
theorem writeHeader_idempotent (w : ResponseWriter) (code code2 : Int) :
    (w.wroteHeader = false →
        (WriteHeader w code).statusCode = code ∧
        (WriteHeader w code).wroteHeader = true ∧
        (WriteHeader w code).underlyingHeaders = w.underlyingHeaders ++ [code]) ∧
    (w.wroteHeader = true → WriteHeader w code = w) ∧
    WriteHeader (WriteHeader w code) code2 = WriteHeader w code := by
  refine ⟨?_, ?_, ?_⟩
  · intro h
    unfold WriteHeader
    simp [h]
  · intro h
    unfold WriteHeader
    simp [h]
  · unfold WriteHeader
    cases hw : w.wroteHeader <;> simp [hw]

/-- Witness for C8: the first WriteHeader on the fresh wrapper with
code 404, then a second with 500, keeps 404 and the sink saw only
404. -/
theorem writeHeader_idempotent_witness :
    ((WriteHeader ResponseWriter.zero 404).statusCode = 404 ∧
        (WriteHeader ResponseWriter.zero 404).wroteHeader = true ∧
        (WriteHeader ResponseWriter.zero 404).underlyingHeaders = [] ++ [404]) ∧
    WriteHeader (WriteHeader ResponseWriter.zero 404) 500 = WriteHeader ResponseWriter.zero 404 :=
  ⟨(writeHeader_idempotent ResponseWriter.zero 404 500).1 rfl,
    (writeHeader_idempotent ResponseWriter.zero 404 500).2.2⟩

/-- C9: compactJSON is a total function: for every input it returns
either the compacted JSON (when json.Compact succeeds) or the raw
unmodified input (when it fails), never an error; the empty string
maps to the empty string, a JSON object with interior whitespace is
compacted, and a non-JSON payload passes through unchanged. -/
theorem compactJSON_total_fallback :
    (∀ data : String, compactJSON data = data ∨
        ∃ c, jsonCompact data = some c ∧ compactJSON data = c) ∧
    compactJSON ("") = "" ∧
    compactJSON ("\x7b\"a\":1,  \"b\":2\x7d") = "\x7b\"a\":1,\"b\":2\x7d" ∧
    compactJSON ("not json") = "not json" := by
  refine ⟨?_, by decide, by decide, by decide⟩
  intro data
  by_cases h : data = ""
  · left
    simp [compactJSON, h]
  · cases hj : jsonCompact data with
    | none => left; simp [compactJSON, h, hj]
    | some c => right; exact ⟨c, rfl, by simp [compactJSON, h, hj]⟩

/-- RecordRequest sets TotalRequests to the wrapped successor of its
old value (part_000 line 34). -/
theorem recordRequest_totalRequests (m : Metrics) (a : String) (s : Int) (l : Nat) :
    (RecordRequest m a s l).TotalRequests = (m.TotalRequests + 1) % U64MOD := by
  unfold RecordRequest
  by_cases h : s ≥ 400 <;> simp [h]

/-- Folding RecordRequest calls keeps TotalRequests inside the uint64
range. -/
theorem recordAll_totalRequests_lt (calls : List (String × Int × Nat)) :
    ∀ m : Metrics, m.TotalRequests < U64MOD → (recordAll m calls).TotalRequests < U64MOD := by
  induction calls with
  | nil => intro m hm; exact hm
  | cons c cs ih =>
    intro m hm
    have h1 : recordAll m (c :: cs) = recordAll (RecordRequest m c.1 c.2.1 c.2.2) cs := rfl
    rw [h1]
    apply ih
    rw [recordRequest_totalRequests]
    exact Nat.mod_lt _ (by decide)

/-- C10: GetMetrics computes average_duration_ms from TotalDuration
(which direct RecordRequest calls never touch), so after every
sequence of direct RecordRequest calls on a fresh Metrics instance the
reported average_duration_ms is still 0. The hypothesis excludes the
wrap point TotalRequests = 2^64 - 1, where the source's uint64 divisor
TotalRequests + 1 wraps to 0 and the division panics instead of
reporting a value. -/
theorem average_duration_ignores_recordRequest (calls : List (String × Int × Nat))
    (h : (recordAll NewMetrics calls).TotalRequests ≠ U64MOD - 1) :
    (recordAll NewMetrics calls).TotalDuration = 0 ∧
    ∃ s : MetricsSnapshot, GetMetrics (recordAll NewMetrics calls) = some s ∧
      s.average_duration_ms = 0 := by
  have htd := recordAll_preserves_totalDuration calls NewMetrics
  have hlt := recordAll_totalRequests_lt calls NewMetrics (by decide)
  refine ⟨htd, ?_⟩
  have h1 : (recordAll NewMetrics calls).TotalRequests + 1 < U64MOD := by omega
  have hmod : ((recordAll NewMetrics calls).TotalRequests + 1) % U64MOD =
      (recordAll NewMetrics calls).TotalRequests + 1 := Nat.mod_eq_of_lt h1
  refine ⟨{ total_requests := (recordAll NewMetrics calls).TotalRequests
            method_counts := (recordAll NewMetrics calls).MethodCounts
            status_code_counts := (recordAll NewMetrics calls).StatusCodeCounts
            average_duration_ms := 0 }, ?_, rfl⟩
  unfold GetMetrics
  rw [hmod, if_neg (by omega), htd]
  simp [NewMetrics]

/-- Witness for C10 at a single direct RecordRequest call (GET, 200,
7 ms): TotalDuration stays 0, the snapshot is returned and its
average_duration_ms is 0. -/
theorem average_duration_ignores_recordRequest_witness :
    (recordAll NewMetrics [(methodGET, 200, 7)]).TotalDuration = 0 ∧
    ∃ s : MetricsSnapshot, GetMetrics (recordAll NewMetrics [(methodGET, 200, 7)]) = some s ∧
      s.average_duration_ms = 0 :=
  average_duration_ignores_recordRequest [(methodGET, 200, 7)] (by decide)

end GoMiddleware
